import Mathlib

/-!
Verification of the credential lifecycle engine of go-authgate/device-cli.

The development shallowly embeds the pure cores of the Go source:
* the RFC 8628 polling state machine of `pollForTokenWithProgress` (main.go),
* the marker-file lock manager `acquireFileLock` (displayer.go's companion file),
* the multi-tenant token store `saveTokens` / `refreshAccessToken` /
  `validateTokenResponse` (main.go).

Machine integers (`time.Duration`, `int`) are modelled as `Int`; the Go
`float64` backoff arithmetic is modelled in exact rationals (`ℚ`), with the
`time.Duration(float64(...))` conversion as the integer floor.  The concrete
values appearing in the theorems below stay far inside the 53-bit mantissa of
`float64`, where the two arithmetics agree.  I/O (HTTP, clock, filesystem) is
factored out: fallible environment interactions become explicit parameters or
traces of outcomes.
-/

namespace DeviceCli

/-! ### Polling engine (main.go, `pollForTokenWithProgress`) -/

/-- Nanoseconds per second, Go's `time.Second`. -/
def nsPerSecond : Int := 1000000000

/-- The 60-second cap on the poll interval (`60*time.Second` in main.go:519). -/
def capNs : Int := 60 * nsPerSecond

/-- Mutable state of the polling loop: the current timer period
(`pollInterval`, a `time.Duration` in nanoseconds) and the exponential
backoff factor (`backoffMultiplier`, a `float64` starting at 1.0). -/
structure PollState where
  pollIntervalNs : Int
  backoffMultiplier : ℚ

/-- The `slow_down` branch of `pollForTokenWithProgress` (main.go:514-521):
`backoffMultiplier *= 1.5` followed by
`pollInterval = min(time.Duration(float64(pollInterval)*backoffMultiplier), 60*time.Second)`.
The float64 product is modelled exactly in `ℚ`; the `Duration` conversion is
the floor to integer nanoseconds. -/
def slowDownUpdate (s : PollState) : PollState :=
  let m := s.backoffMultiplier * (3 / 2 : ℚ)
  { pollIntervalNs := min (Int.floor ((s.pollIntervalNs : ℚ) * m)) capNs
    backoffMultiplier := m }

/-- Outcome of one `exchangeDeviceCode` attempt, as the polling loop sees it:
a token (`ok`), a parsed OAuth error body with its `error` code
(`oauthErr`), or an error that is not a parseable OAuth error response
(`rawErr`). -/
inductive ExchangeResult where
  | ok
  | oauthErr (code : String)
  | rawErr
deriving DecidableEq

/-- Side-channel notifications the engine sends to the `Displayer` observer. -/
inductive PollEvent where
  | pollSlowDown (newIntervalNs : Int)
deriving DecidableEq

/-- What the loop body decides after one exchange attempt. -/
inductive PollDecision where
  | continuePolling
  | finished (success : Bool) (msg : String)
deriving DecidableEq

/-- One iteration of the `select`/`switch` body of `pollForTokenWithProgress`
(main.go:495-545): success returns the token; `authorization_pending`
continues unchanged; `slow_down` backs off, notifies the observer via
`d.PollSlowDown(pollInterval)` and continues; `expired_token`,
`access_denied`, other codes and unparseable errors are terminal. -/
def pollStep (s : PollState) (r : ExchangeResult) :
    PollState × PollDecision × List PollEvent :=
  match r with
  | .ok => (s, .finished true "", [])
  | .rawErr => (s, .finished false "token exchange failed", [])
  | .oauthErr code =>
    if code = "authorization_pending" then
      (s, .continuePolling, [])
    else if code = "slow_down" then
      let s1 := slowDownUpdate s
      (s1, .continuePolling, [.pollSlowDown s1.pollIntervalNs])
    else if code = "expired_token" then
      (s, .finished false "device code expired, please restart the flow", [])
    else if code = "access_denied" then
      (s, .finished false "user denied authorization", [])
    else
      (s, .finished false "authorization failed", [])

/-- Run the polling loop over a finite trace of exchange outcomes, returning
the final state, the terminal decision if one was reached, and the observer
events emitted along the way. -/
def runPoll : PollState → List ExchangeResult →
    PollState × Option PollDecision × List PollEvent
  | s, [] => (s, none, [])
  | s, r :: rs =>
    let step := pollStep s r
    match step.2.1 with
    | .continuePolling =>
      let rest := runPoll step.1 rs
      (rest.1, rest.2.1, step.2.2 ++ rest.2.2)
    | .finished ok msg => (step.1, some (.finished ok msg), step.2.2)

/-- Interval selection at the top of `pollForTokenWithProgress`
(main.go:478-481): the 5-second RFC 8628 default applies exactly when
`deviceAuth.Interval == 0`. -/
def effectiveIntervalSec (interval : Int) : Int :=
  if interval = 0 then 5 else interval

/-- Go's two's-complement int64 arithmetic: reduce an unbounded integer to
the representative in `[-2^63, 2^63)`. -/
def int64Wrap (x : Int) : Int :=
  (x + 9223372036854775808) % 18446744073709551616 - 9223372036854775808

/-- `pollInterval := time.Duration(interval) * time.Second` (main.go:484).
`time.Duration` is an int64, so the multiplication by `10^9` wraps with
Go's defined int64 overflow semantics. -/
def initialPollIntervalNs (interval : Int) : Int :=
  int64Wrap (effectiveIntervalSec interval * nsPerSecond)

/-- Go's `time.NewTicker` panics on a non-positive period; modelled as an
`Except` so the abort is explicit. -/
def newTicker (periodNs : Int) : Except String Int :=
  if periodNs ≤ 0 then .error "non-positive interval for NewTicker"
  else .ok periodNs

/-- Timer construction for the polling loop (main.go:487). -/
def setupPollTicker (interval : Int) : Except String Int :=
  newTicker (initialPollIntervalNs interval)

/-- The poll state produced by the 5-second default interval:
`pollInterval = 5s`, `backoffMultiplier = 1.0`. -/
def initState5 : PollState := { pollIntervalNs := 5000000000, backoffMultiplier := 1 }

/-! ### Lock manager (`acquireFileLock`) -/

/-- Outcome of `os.Remove` on the stale marker. -/
inductive RemoveOutcome where
  | ok
  | notExist
  | err
deriving DecidableEq

/-- What one `os.OpenFile(..., O_CREATE|O_EXCL, ...)` attempt observes:
creation succeeded; the marker already exists (with the `os.Stat` age in
milliseconds when stat succeeds, and the removal outcome that would occur if
a stale removal is attempted); or another creation error. -/
inductive CreateOutcome where
  | created
  | alreadyExists (statAgeMs : Option Nat) (remove : RemoveOutcome)
  | otherErr
deriving DecidableEq

/-- Result of `acquireFileLock`. -/
inductive LockResult where
  | acquired (attempt : Nat)
  | staleRemoveFailed
  | createFailed
  | timeout
deriving DecidableEq

/-- `maxRetries := 50`. -/
def maxRetries : Nat := 50

/-- `retryDelay := 100 * time.Millisecond`, in milliseconds. -/
def retryDelayMs : Nat := 100

/-- The 30-second staleness threshold, in milliseconds. -/
def staleThresholdMs : Nat := 30000

/-- The retry loop of `acquireFileLock`, driven by an environment trace
giving the outcome of each creation attempt.  `fuel` is the remaining
attempt budget (`maxRetries - i` for the Go loop index `i`).  Returns the
result together with the list of `time.Sleep` delays performed, in
milliseconds: the stale-reclaim path (`age > 30s`, removal succeeded or
reported "already gone") continues without sleeping, the held-lock path
(and the stat-failure path) sleeps `retryDelay` before retrying. -/
def acquireAux (env : Nat → CreateOutcome) : Nat → Nat → LockResult × List Nat
  | 0, _ => (.timeout, [])
  | fuel + 1, i =>
    match env i with
    | .created => (.acquired i, [])
    | .otherErr => (.createFailed, [])
    | .alreadyExists statAgeMs remove =>
      match statAgeMs with
      | some age =>
        if staleThresholdMs < age then
          match remove with
          | .err => (.staleRemoveFailed, [])
          | _ => acquireAux env fuel (i + 1)
        else
          let r := acquireAux env fuel (i + 1)
          (r.1, retryDelayMs :: r.2)
      | none =>
        let r := acquireAux env fuel (i + 1)
        (r.1, retryDelayMs :: r.2)

/-- `acquireFileLock`: the full 50-attempt loop. -/
def acquireFileLock (env : Nat → CreateOutcome) : LockResult × List Nat :=
  acquireAux env maxRetries 0

/-- Environment in which the marker is held by another live process forever:
every attempt finds a fresh (age 0) marker. -/
def busyEnv : Nat → CreateOutcome :=
  fun _ => .alreadyExists (some 0) .ok

/-- Environment in which every attempt finds a stale marker (age 31s) whose
removal succeeds, but another process recreates the marker before the next
creation attempt. -/
def staleRecreateEnv : Nat → CreateOutcome :=
  fun _ => .alreadyExists (some 31000) .ok

/-- Environment with one stale marker whose removal reports "already gone",
after which creation succeeds. -/
def staleThenFreeEnv : Nat → CreateOutcome :=
  fun i => if i = 0 then .alreadyExists (some 31000) .notExist else .created

/-! ### Token store (main.go: `validateTokenResponse`, `saveTokens`,
`refreshAccessToken`, `exchangeDeviceCode`) -/

/-- `TokenStorage`: one client's persisted record.  `expiresAt` is seconds
since an arbitrary epoch. -/
structure TokenStorage where
  accessToken : String
  refreshToken : String
  tokenType : String
  expiresAt : Int
  clientID : String
deriving DecidableEq

/-- The `tokens` object of the on-disk document, keyed by client id.
Modelled as an association list; lookups and updates match Go map
semantics. -/
abbrev TokenMap := List (String × TokenStorage)

/-- Go map read `m[k]`. -/
def mapGet : TokenMap → String → Option TokenStorage
  | [], _ => none
  | kv :: rest, k => if kv.1 = k then some kv.2 else mapGet rest k

/-- Go map write `m[k] = v`. -/
def mapSet : TokenMap → String → TokenStorage → TokenMap
  | [], k, v => [(k, v)]
  | kv :: rest, k, v =>
    if kv.1 = k then (k, v) :: rest else kv :: mapSet rest k v

/-- What the read-before-merge step of `saveTokens` observed on disk. -/
inductive ReadResult where
  | parsed (m : TokenMap)
  | unreadable
  | missing

/-- The pure core of `saveTokens` (main.go:689-750): default an empty
`ClientID` to the configured client id, recover an empty map when the prior
document is missing or fails to unmarshal, and merge the record under its
client id.  Marshalling and the temp-file/rename write are I/O and carry the
map through unchanged. -/
def saveTokensCore (defaultClientID : String) (storage : TokenStorage)
    (prior : ReadResult) : TokenMap :=
  let st := if storage.clientID = "" then
    { storage with clientID := defaultClientID } else storage
  let m : TokenMap :=
    match prior with
    | .parsed m => m
    | .unreadable => []
    | .missing => []
  mapSet m st.clientID st

/-- A parsed token-endpoint response body. -/
structure TokenResp where
  accessToken : String
  refreshToken : String
  tokenType : String
  expiresIn : Int
deriving DecidableEq

/-- `validateTokenResponse` (main.go:192-211).  Returns the error message,
`none` when valid.  Go's `len` is the byte length, modelled with
`String.utf8ByteSize`. -/
def validateTokenResponse (accessToken tokenType : String) (expiresIn : Int) :
    Option String :=
  if accessToken = "" then some "access_token is empty"
  else if accessToken.utf8ByteSize < 10 then some "access_token is too short"
  else if expiresIn ≤ 0 then some "expires_in must be positive"
  else if tokenType ≠ "" ∧ tokenType ≠ "Bearer" then some "unexpected token_type"
  else none

/-- `oauth2.Token.Type()` (dependency golang.org/x/oauth2), restricted to the
inputs that survive validation: it canonicalizes an empty `token_type` to
"Bearer" and keeps "Bearer" as is. -/
def tokenTypeCanonical (tokenType : String) : String :=
  if tokenType = "" then "Bearer" else tokenType

/-- The record built by `refreshAccessToken` (main.go:823-838): the new
refresh token is the server's value unless that field is empty, in which
case the prior token is carried forward; `expiresAt = now + expiresIn`. -/
def refreshStorage (resp : TokenResp) (oldRefreshToken clientID : String)
    (now : Int) : TokenStorage :=
  let newRefreshToken :=
    if resp.refreshToken = "" then oldRefreshToken else resp.refreshToken
  { accessToken := resp.accessToken
    refreshToken := newRefreshToken
    tokenType := resp.tokenType
    expiresAt := now + resp.expiresIn
    clientID := clientID }

/-- The validate-then-persist pipeline of the device grant:
`exchangeDeviceCode` (main.go:607-614) validates the parsed response before
returning a token, and `performDeviceFlow` (main.go:452-464) builds the
record (with `token.Type()`) and saves it only on success.  Returns the
outcome and the list of records written to the store. -/
def deviceFlowRun (resp : TokenResp) (cid : String) (now : Int) :
    Except String TokenStorage × List TokenStorage :=
  match validateTokenResponse resp.accessToken resp.tokenType resp.expiresIn with
  | some e => (.error ("invalid token response: " ++ e), [])
  | none =>
    let st : TokenStorage :=
      { accessToken := resp.accessToken
        refreshToken := resp.refreshToken
        tokenType := tokenTypeCanonical resp.tokenType
        expiresAt := now + resp.expiresIn
        clientID := cid }
    (.ok st, [st])

/-- The validate-then-persist pipeline of `refreshAccessToken`
(main.go:814-845): validation failure returns before the record is built;
on success the record is built and saved. -/
def refreshRun (resp : TokenResp) (oldRefreshToken cid : String) (now : Int) :
    Except String TokenStorage × List TokenStorage :=
  match validateTokenResponse resp.accessToken resp.tokenType resp.expiresIn with
  | some e => (.error ("invalid token response: " ++ e), [])
  | none =>
    let st := refreshStorage resp oldRefreshToken cid now
    (.ok st, [st])

/-- A stored record satisfies the validation rules: non-empty access token of
at least 10 bytes and a token type that is empty or "Bearer". -/
def storedRecordValid (st : TokenStorage) : Prop :=
  st.accessToken ≠ "" ∧ 10 ≤ st.accessToken.utf8ByteSize ∧
    (st.tokenType = "" ∨ st.tokenType = "Bearer")

/-- The responses `validateTokenResponse` rejects, as stated by the spec:
empty or short access token, non-positive expiry, or a token type that is
neither empty nor "Bearer". -/
def invalidTokenResp (resp : TokenResp) : Prop :=
  resp.accessToken = "" ∨ resp.accessToken.utf8ByteSize < 10 ∨
    resp.expiresIn ≤ 0 ∨ (resp.tokenType ≠ "" ∧ resp.tokenType ≠ "Bearer")

/-! ## Helper lemmas -/

/-- A polling iteration on `authorization_pending` changes nothing and continues. -/
theorem pollStep_pending (s : PollState) :
    pollStep s (.oauthErr "authorization_pending") = (s, .continuePolling, []) := rfl

/-- A leading `authorization_pending` response is absorbed by the loop. -/
theorem runPoll_pending_cons (s : PollState) (rs : List ExchangeResult) :
    runPoll s (.oauthErr "authorization_pending" :: rs) = runPoll s rs := by
  simp [runPoll, pollStep_pending]

/-- First `slow_down` from the 5-second initial state: 5s × 1.5 = 7.5s. -/
theorem slowDownUpdate_initState5 :
    slowDownUpdate initState5 = ⟨7500000000, 3/2⟩ := by
  unfold slowDownUpdate initState5
  norm_num [capNs, nsPerSecond, min_def]

/-- Second `slow_down`: 7.5s × 2.25 = 16.875s. -/
theorem slowDownUpdate_step2 :
    slowDownUpdate ⟨7500000000, 3/2⟩ = ⟨16875000000, 9/4⟩ := by
  unfold slowDownUpdate
  norm_num [capNs, nsPerSecond, min_def]

/-- Third `slow_down`: 16.875s × 3.375 = 56.953125s. -/
theorem slowDownUpdate_step3 :
    slowDownUpdate ⟨16875000000, 9/4⟩ = ⟨56953125000, 27/8⟩ := by
  unfold slowDownUpdate
  norm_num [capNs, nsPerSecond, min_def]

/-- Fourth `slow_down`: 56.953125s × 5.0625 exceeds the cap, so 60s. -/
theorem slowDownUpdate_step4 :
    slowDownUpdate ⟨56953125000, 27/8⟩ = ⟨60000000000, 81/16⟩ := by
  unfold slowDownUpdate
  norm_num [capNs, nsPerSecond, min_def]

/-- Three `slow_down` signals from the default state. -/
theorem iterate3_initState5 :
    slowDownUpdate^[3] initState5 = ⟨56953125000, 27/8⟩ := by
  show slowDownUpdate (slowDownUpdate (slowDownUpdate initState5)) = _
  rw [slowDownUpdate_initState5, slowDownUpdate_step2, slowDownUpdate_step3]

/-- Four `slow_down` signals from the default state reach the cap. -/
theorem iterate4_initState5 :
    slowDownUpdate^[4] initState5 = ⟨60000000000, 81/16⟩ := by
  show slowDownUpdate (slowDownUpdate (slowDownUpdate (slowDownUpdate initState5))) = _
  rw [slowDownUpdate_initState5, slowDownUpdate_step2, slowDownUpdate_step3,
    slowDownUpdate_step4]

/-- The backoff multiplier never drops below 1 across a `slow_down` step. -/
theorem one_le_mult_slowDownUpdate (s : PollState) (h : 1 ≤ s.backoffMultiplier) :
    1 ≤ (slowDownUpdate s).backoffMultiplier := by
  show (1 : ℚ) ≤ s.backoffMultiplier * (3 / 2)
  nlinarith

/-- The backoff multiplier stays at least 1 along the iterates from the
default state. -/
theorem one_le_mult_iterate (n : ℕ) :
    1 ≤ (slowDownUpdate^[n] initState5).backoffMultiplier := by
  induction n with
  | zero => norm_num [initState5]
  | succ k ih =>
    rw [Function.iterate_succ_apply']
    exact one_le_mult_slowDownUpdate _ ih

/-- Once the poll interval sits at the 60-second cap, further `slow_down`
signals keep it there. -/
theorem capped_stays_capped (s : PollState) (hm : 1 ≤ s.backoffMultiplier)
    (hp : s.pollIntervalNs = capNs) :
    (slowDownUpdate s).pollIntervalNs = capNs := by
  have hm2 : (1 : ℚ) ≤ s.backoffMultiplier * (3 / 2) := by nlinarith
  have hcappos : (0 : ℚ) ≤ (capNs : ℚ) := by norm_num [capNs, nsPerSecond]
  have hcap : (capNs : ℚ) ≤ (s.pollIntervalNs : ℚ) * (s.backoffMultiplier * (3 / 2)) := by
    rw [hp]
    calc (capNs : ℚ) = (capNs : ℚ) * 1 := by ring
    _ ≤ (capNs : ℚ) * (s.backoffMultiplier * (3 / 2)) :=
        mul_le_mul_of_nonneg_left hm2 hcappos
  have hfloor : capNs ≤ Int.floor ((s.pollIntervalNs : ℚ) * (s.backoffMultiplier * (3 / 2))) :=
    Int.le_floor.mpr hcap
  show min (Int.floor ((s.pollIntervalNs : ℚ) * (s.backoffMultiplier * (3 / 2)))) capNs = capNs
  exact min_eq_right hfloor

/-- The non-stale branch of the lock loop sleeps, retries, and times out once
the budget is spent. -/
theorem acquireAux_allNonStale (env : Nat → CreateOutcome) (fuel : Nat) :
    ∀ i : Nat,
      (∀ j, i ≤ j → j < i + fuel →
        ∃ age remove, env j = .alreadyExists (some age) remove ∧ age ≤ staleThresholdMs) →
      acquireAux env fuel i = (.timeout, List.replicate fuel retryDelayMs) := by
  induction fuel with
  | zero => intro i _; rfl
  | succ k ih =>
    intro i h
    obtain ⟨age, remove, henv, hage⟩ := h i (Nat.le_refl i) (by omega)
    have hlt : ¬ staleThresholdMs < age := by omega
    have hrest := ih (i + 1) (fun j hj1 hj2 => h j (by omega) (by omega))
    simp [acquireAux, henv, hlt, hrest, List.replicate_succ]

/-- Go map read after writing key `k` returns the written record. -/
theorem mapGet_mapSet_self (m : TokenMap) (k : String) (v : TokenStorage) :
    mapGet (mapSet m k v) k = some v := by
  induction m with
  | nil => simp [mapSet, mapGet]
  | cons kv rest ih =>
    by_cases hkv : kv.1 = k
    · simp [mapSet, hkv, mapGet]
    · simp [mapSet, hkv, mapGet, ih]

/-- Go map read at any other key is unchanged by the write. -/
theorem mapGet_mapSet_ne (m : TokenMap) (k k2 : String) (v : TokenStorage)
    (h : k2 ≠ k) : mapGet (mapSet m k v) k2 = mapGet m k2 := by
  induction m with
  | nil => simp [mapSet, mapGet, Ne.symm h]
  | cons kv rest ih =>
    by_cases hkv : kv.1 = k
    · simp [mapSet, hkv, mapGet, Ne.symm h]
    · simp [mapSet, hkv, mapGet, ih]

/-- Values already inside the int64 range are unchanged by the wrap. -/
theorem int64Wrap_eq_self (x : Int) (hlo : -9223372036854775808 ≤ x)
    (hhi : x < 9223372036854775808) : int64Wrap x = x := by
  unfold int64Wrap
  have h1 : 0 ≤ x + 9223372036854775808 := by omega
  have h2 : x + 9223372036854775808 < 18446744073709551616 := by omega
  rw [Int.emod_eq_of_lt h1 h2]
  omega

/-- Responses the spec calls invalid are rejected by `validateTokenResponse`. -/
theorem validate_some_of_invalid (resp : TokenResp) (h : invalidTokenResp resp) :
    ∃ e, validateTokenResponse resp.accessToken resp.tokenType resp.expiresIn = some e := by
  unfold invalidTokenResp at h
  unfold validateTokenResponse
  split_ifs with h1 h2 h3 h4
  · exact ⟨_, rfl⟩
  · exact ⟨_, rfl⟩
  · exact ⟨_, rfl⟩
  · exact ⟨_, rfl⟩
  · exfalso
    rcases h with h | h | h | h
    · exact h1 h
    · exact h2 h
    · exact h3 h
    · exact h4 h

/-- A response `validateTokenResponse` accepts satisfies the record-level
validity conditions. -/
theorem validate_none_valid (resp : TokenResp)
    (hv : validateTokenResponse resp.accessToken resp.tokenType resp.expiresIn = none) :
    resp.accessToken ≠ "" ∧ 10 ≤ resp.accessToken.utf8ByteSize ∧
      (resp.tokenType = "" ∨ resp.tokenType = "Bearer") := by
  unfold validateTokenResponse at hv
  split_ifs at hv with h1 h2 h3 h4
  exact ⟨h1, by omega, by tauto⟩

/-! ## Claim theorems -/

/-- Claim C1: on every `slow_down` response the engine multiplies the backoff
multiplier by 1.5, sets the poll interval to
`min(pollInterval × backoffMultiplier, 60s)`, notifies the observer of the
new interval, and continues polling; consequently after any positive number
of `slow_down` responses the poll interval is at most 60 seconds. -/
theorem slowDown_backoff_continues_and_caps (s : PollState) (n : ℕ) (hn : 1 ≤ n) :
    pollStep s (.oauthErr "slow_down") =
      (slowDownUpdate s, .continuePolling,
        [.pollSlowDown (slowDownUpdate s).pollIntervalNs]) ∧
    (slowDownUpdate s).backoffMultiplier = s.backoffMultiplier * (3 / 2) ∧
    (slowDownUpdate s).pollIntervalNs ≤ capNs ∧
    (slowDownUpdate^[n] s).pollIntervalNs ≤ capNs := by
  refine ⟨rfl, rfl, min_le_right _ _, ?_⟩
  obtain ⟨m, rfl⟩ : ∃ m, n = m + 1 := ⟨n - 1, by omega⟩
  rw [Function.iterate_succ_apply']
  exact min_le_right _ _

/-- Witness for C1 at the default 5-second state and two `slow_down` signals. -/
theorem slowDown_backoff_continues_and_caps_witness :
    1 ≤ 2 ∧ (slowDownUpdate^[2] initState5).pollIntervalNs ≤ capNs :=
  ⟨by decide, (slowDown_backoff_continues_and_caps initState5 2 (by decide)).2.2.2⟩

/-- Claim C2, counterexample: starting from the default 5-second interval,
after exactly 3 `slow_down` occurrences the poll interval is 56.953125s,
which is not ≈ initial × 1.5³ = 16.875s — it exceeds three times that
value, because the code multiplies the current interval (not the initial
one) by the compounding multiplier. -/
theorem backoff_compounds_counterexample :
    (slowDownUpdate^[3] initState5).pollIntervalNs = 56953125000 ∧
    ¬ (slowDownUpdate^[3] initState5).pollIntervalNs ≤ 3 * 16875000000 := by
  rw [iterate3_initState5]
  norm_num

/-- Claim C2, amended: with the default 5-second initial interval, the
intervals after 1, 2, 3 `slow_down` occurrences are
5s × 1.5 = 7.5s, 7.5s × 1.5² = 16.875s, and 16.875s × 1.5³ = 56.953125s
(initial × 1.5^(1+2+3)), and from the 4th occurrence onward the interval is
capped at exactly 60 seconds. -/
theorem backoff_compounded_growth :
    (slowDownUpdate^[1] initState5).pollIntervalNs = 7500000000 ∧
    (slowDownUpdate^[2] initState5).pollIntervalNs = 16875000000 ∧
    (slowDownUpdate^[3] initState5).pollIntervalNs = 56953125000 ∧
    ∀ n : ℕ, 4 ≤ n → (slowDownUpdate^[n] initState5).pollIntervalNs = capNs := by
  have key : ∀ m : ℕ, (slowDownUpdate^[m + 4] initState5).pollIntervalNs = capNs := by
    intro m
    induction m with
    | zero =>
      show (slowDownUpdate^[4] initState5).pollIntervalNs = capNs
      rw [iterate4_initState5]
      norm_num [capNs, nsPerSecond]
    | succ k ih =>
      have hstep : k + 1 + 4 = (k + 4) + 1 := by omega
      rw [hstep, Function.iterate_succ_apply']
      exact capped_stays_capped _ (one_le_mult_iterate (k + 4)) ih
  refine ⟨?_, ?_, ?_, ?_⟩
  · show (slowDownUpdate initState5).pollIntervalNs = 7500000000
    rw [slowDownUpdate_initState5]
  · show (slowDownUpdate (slowDownUpdate initState5)).pollIntervalNs = 16875000000
    rw [slowDownUpdate_initState5, slowDownUpdate_step2]
  · rw [iterate3_initState5]
  · intro n hn
    obtain ⟨m, rfl⟩ : ∃ m, n = m + 4 := ⟨n - 4, by omega⟩
    exact key m

/-- Witness for the amended C2 at n = 5. -/
theorem backoff_compounded_growth_witness :
    4 ≤ 5 ∧ (slowDownUpdate^[5] initState5).pollIntervalNs = capNs :=
  ⟨by decide, backoff_compounded_growth.2.2.2 5 (by decide)⟩

/-- Claim C3, counterexample: in an environment where every creation attempt
finds a stale (31-second-old) marker whose removal succeeds but which is
immediately recreated by another process, `acquireFileLock` returns a
timeout after performing zero 100ms delays — the 50-attempt budget was
consumed entirely by stale-reclaim retries, contradicting "acquisition is
retried immediately without consuming one of the 50 retry attempts". -/
theorem stale_retry_consumes_budget :
    acquireFileLock staleRecreateEnv = (.timeout, []) := by decide

/-- Claim C3, amended: when an attempt finds a marker older than the
30-second staleness threshold and its deletion succeeds or reports the
marker already gone, the loop retries immediately — no delay is recorded
and the run continues identically at the next attempt — but the retry does
consume one unit of the 50-attempt budget (`fuel + 1` becomes `fuel`). -/
theorem stale_reclaim_immediate_retry (env : Nat → CreateOutcome) (fuel i age : Nat)
    (remove : RemoveOutcome) (henv : env i = .alreadyExists (some age) remove)
    (hage : staleThresholdMs < age) (hrem : remove ≠ RemoveOutcome.err) :
    acquireAux env (fuel + 1) i = acquireAux env fuel (i + 1) := by
  cases remove with
  | err => exact absurd rfl hrem
  | ok => simp [acquireAux, henv, hage]
  | notExist => simp [acquireAux, henv, hage]

/-- Witness for the amended C3: one stale marker whose removal reports
"already gone", then a successful creation. -/
theorem stale_reclaim_immediate_retry_witness :
    acquireAux staleThenFreeEnv 50 0 = acquireAux staleThenFreeEnv 49 1 :=
  stale_reclaim_immediate_retry staleThenFreeEnv 49 0 31000 .notExist rfl
    (by decide) (by decide)

/-- Claim C4: saving a record writes it under its client id and leaves every
other key of the prior document untouched. -/
theorem saveTokens_frame (m : TokenMap) (st : TokenStorage) (cid : String)
    (h : st.clientID ≠ "") :
    mapGet (saveTokensCore cid st (.parsed m)) st.clientID = some st ∧
    ∀ k, k ≠ st.clientID →
      mapGet (saveTokensCore cid st (.parsed m)) k = mapGet m k := by
  constructor
  · simp [saveTokensCore, h, mapGet_mapSet_self]
  · intro k hk
    simp [saveTokensCore, h, mapGet_mapSet_ne _ _ _ _ hk]

/-- Witness for C4: saving client `c1` preserves client `c2`. -/
theorem saveTokens_frame_witness :
    mapGet (saveTokensCore "cfg"
        (TokenStorage.mk "AAAAAAAAAA" "R1" "Bearer" 100 "c1")
        (.parsed [("c2", TokenStorage.mk "BBBBBBBBBB" "R2" "Bearer" 200 "c2")]))
      "c1" = some (TokenStorage.mk "AAAAAAAAAA" "R1" "Bearer" 100 "c1") ∧
    mapGet (saveTokensCore "cfg"
        (TokenStorage.mk "AAAAAAAAAA" "R1" "Bearer" 100 "c1")
        (.parsed [("c2", TokenStorage.mk "BBBBBBBBBB" "R2" "Bearer" 200 "c2")]))
      "c2" = mapGet [("c2", TokenStorage.mk "BBBBBBBBBB" "R2" "Bearer" 200 "c2")] "c2" :=
  ⟨(saveTokens_frame _ _ "cfg" (by decide)).1,
   (saveTokens_frame _ _ "cfg" (by decide)).2 "c2" (by decide)⟩

/-- Claim C5: a successful refresh carries the prior refresh token forward
exactly when the server's `refresh_token` field is empty, and stores the
server-supplied value exactly when it is non-empty. -/
theorem refresh_token_carry_forward (resp : TokenResp) (old cid : String) (now : Int) :
    (resp.refreshToken = "" →
      (refreshStorage resp old cid now).refreshToken = old) ∧
    (resp.refreshToken ≠ "" →
      (refreshStorage resp old cid now).refreshToken = resp.refreshToken) := by
  constructor <;> intro h <;> simp [refreshStorage, h]

/-- Witness for C5 in both server modes. -/
theorem refresh_token_carry_forward_witness :
    (refreshStorage (TokenResp.mk "AAAAAAAAAA" "" "Bearer" 3600) "R1" "c" 0).refreshToken
      = "R1" ∧
    (refreshStorage (TokenResp.mk "AAAAAAAAAA" "R2" "Bearer" 3600) "R1" "c" 0).refreshToken
      = "R2" :=
  ⟨(refresh_token_carry_forward (TokenResp.mk "AAAAAAAAAA" "" "Bearer" 3600) "R1" "c" 0).1
      rfl,
   (refresh_token_carry_forward (TokenResp.mk "AAAAAAAAAA" "R2" "Bearer" 3600) "R1" "c" 0).2
      (by decide)⟩

/-- Claim C6: a token response that is empty/short in its access token,
non-positive in `expires_in`, or carries an unexpected token type makes both
the device-grant and the refresh pipeline fail with a validation error
before any store write; and every record either pipeline ever writes
satisfies the validation conditions. -/
theorem validation_blocks_store_write (resp : TokenResp) (old cid : String) (now : Int) :
    (invalidTokenResp resp →
      (deviceFlowRun resp cid now).2 = [] ∧ (refreshRun resp old cid now).2 = [] ∧
      (∃ e, (deviceFlowRun resp cid now).1 = Except.error e) ∧
      (∃ e, (refreshRun resp old cid now).1 = Except.error e)) ∧
    (∀ st ∈ (deviceFlowRun resp cid now).2, storedRecordValid st) ∧
    (∀ st ∈ (refreshRun resp old cid now).2, storedRecordValid st) := by
  refine ⟨?_, ?_, ?_⟩
  · intro h
    obtain ⟨e, he⟩ := validate_some_of_invalid resp h
    refine ⟨?_, ?_, ⟨"invalid token response: " ++ e, ?_⟩,
      ⟨"invalid token response: " ++ e, ?_⟩⟩ <;>
      simp [deviceFlowRun, refreshRun, he]
  · intro st hst
    rcases hv : validateTokenResponse resp.accessToken resp.tokenType resp.expiresIn with _ | e
    · obtain ⟨ha, hlen, ht⟩ := validate_none_valid resp hv
      simp [deviceFlowRun, hv] at hst
      subst hst
      refine ⟨ha, hlen, ?_⟩
      rcases ht with ht | ht <;> simp [tokenTypeCanonical, ht]
    · simp [deviceFlowRun, hv] at hst
  · intro st hst
    rcases hv : validateTokenResponse resp.accessToken resp.tokenType resp.expiresIn with _ | e
    · obtain ⟨ha, hlen, ht⟩ := validate_none_valid resp hv
      simp [refreshRun, hv] at hst
      subst hst
      exact ⟨ha, hlen, ht⟩
    · simp [refreshRun, hv] at hst

/-- Witness for C6: a 5-character access token is rejected by both pipelines
with no store write. -/
theorem validation_blocks_store_write_witness :
    (deviceFlowRun (TokenResp.mk "short" "" "Bearer" 3600) "c" 0).2 = [] ∧
    (refreshRun (TokenResp.mk "short" "" "Bearer" 3600) "R1" "c" 0).2 = [] :=
  ⟨((validation_blocks_store_write (TokenResp.mk "short" "" "Bearer" 3600) "R1" "c" 0).1
      (by right; left; decide)).1,
   ((validation_blocks_store_write (TokenResp.mk "short" "" "Bearer" 3600) "R1" "c" 0).1
      (by right; left; decide)).2.1⟩

/-- Claim C7: when the prior on-disk document fails to parse, the save still
goes through: the document is treated as an empty map and the merged result
contains the incoming record under its client id. -/
theorem save_recovers_from_corrupt (st : TokenStorage) (cid : String)
    (h : st.clientID ≠ "") :
    saveTokensCore cid st .unreadable = mapSet [] st.clientID st ∧
    mapGet (saveTokensCore cid st .unreadable) st.clientID = some st := by
  constructor
  · simp [saveTokensCore, h]
  · simp [saveTokensCore, h, mapGet_mapSet_self]

/-- Witness for C7 at a concrete record. -/
theorem save_recovers_from_corrupt_witness :
    mapGet (saveTokensCore "cfg"
        (TokenStorage.mk "AAAAAAAAAA" "R1" "Bearer" 100 "c1") .unreadable)
      "c1" = some (TokenStorage.mk "AAAAAAAAAA" "R1" "Bearer" 100 "c1") :=
  (save_recovers_from_corrupt _ "cfg" (by decide)).2

/-- Claim C8: when every attempt finds a non-stale marker held by another
process, the loop sleeps the fixed 100ms delay after each of its 50
attempts and then fails with a timeout instead of blocking forever. -/
theorem lock_timeout_after_max_retries (env : Nat → CreateOutcome)
    (h : ∀ j, j < maxRetries →
      ∃ age remove, env j = CreateOutcome.alreadyExists (some age) remove ∧
        age ≤ staleThresholdMs) :
    acquireFileLock env = (.timeout, List.replicate maxRetries retryDelayMs) :=
  acquireAux_allNonStale env maxRetries 0 (fun j _ hj2 => h j (by omega))

/-- Witness for C8: a permanently held fresh lock. -/
theorem lock_timeout_after_max_retries_witness :
    acquireFileLock busyEnv = (.timeout, List.replicate maxRetries retryDelayMs) :=
  lock_timeout_after_max_retries busyEnv (fun j _ => ⟨0, .ok, rfl, by omega⟩)

/-- Claim C9: a trace consisting only of `authorization_pending` responses
produces no terminal result, changes no state, and emits no events — the
engine just keeps polling. -/
theorem pending_never_terminates (s : PollState) (n : ℕ) :
    runPoll s (List.replicate n (.oauthErr "authorization_pending")) = (s, none, []) := by
  induction n with
  | zero => rfl
  | succ k ih => rw [List.replicate_succ, runPoll_pending_cons, ih]

/-- Claim C10, counterexample: the negative interval -10^10 does not abort
the engine.  `time.Duration(-10^10) * time.Second` wraps in int64 to the
positive period 8446744073709551616 ns, so `time.NewTicker` succeeds and
the engine polls, refuting "for every negative server-supplied interval the
computed timer period is non-positive, so the engine's timer construction
aborts". -/
theorem negative_interval_wraps_counterexample :
    initialPollIntervalNs (-10000000000) = 8446744073709551616 ∧
    setupPollTicker (-10000000000) = .ok 8446744073709551616 ∧
    setupPollTicker (-10000000000) ≠ .error "non-positive interval for NewTicker" := by
  refine ⟨by decide, rfl, ?_⟩
  rw [show setupPollTicker (-10000000000) = Except.ok 8446744073709551616 from rfl]
  simp

/-- Claim C10, amended: the 5-second default applies exactly when the
server-supplied interval is zero and every other interval is kept as-is;
for a negative interval whose product with 10^9 still fits in int64
(`-9223372036 ≤ interval < 0`) the computed timer period is non-positive
and `time.NewTicker` construction aborts, and for a positive interval whose
product fits (`0 < interval ≤ 9223372036`) the period is
`interval × 10^9` and polling proceeds; outside that band the int64
multiplication wraps and the sign of the period is no longer determined by
the sign of the interval. -/
theorem default_interval_only_at_zero_int64 (i : Int) :
    effectiveIntervalSec 0 = 5 ∧
    (i ≠ 0 → effectiveIntervalSec i = i) ∧
    (-9223372036 ≤ i → i < 0 →
      setupPollTicker i = .error "non-positive interval for NewTicker") ∧
    (0 < i → i ≤ 9223372036 → setupPollTicker i = .ok (i * nsPerSecond)) := by
  refine ⟨rfl, ?_, ?_, ?_⟩
  · intro h
    simp [effectiveIntervalSec, h]
  · intro hlo hneg
    have h0 : ¬ i = 0 := by omega
    have hns : nsPerSecond = 1000000000 := rfl
    have hwrap : int64Wrap (i * nsPerSecond) = i * nsPerSecond :=
      int64Wrap_eq_self _ (by rw [hns]; omega) (by rw [hns]; omega)
    have hle : i * nsPerSecond ≤ 0 := by rw [hns]; omega
    simp [setupPollTicker, newTicker, initialPollIntervalNs, effectiveIntervalSec, h0,
      hwrap, hle]
  · intro hpos hhi
    have h0 : ¬ i = 0 := by omega
    have hns : nsPerSecond = 1000000000 := rfl
    have hwrap : int64Wrap (i * nsPerSecond) = i * nsPerSecond :=
      int64Wrap_eq_self _ (by rw [hns]; omega) (by rw [hns]; omega)
    have hle : ¬ i * nsPerSecond ≤ 0 := by rw [hns]; omega
    simp [setupPollTicker, newTicker, initialPollIntervalNs, effectiveIntervalSec, h0,
      hwrap, hle]

/-- Witness for the amended C10 at intervals -3, 0 and 7. -/
theorem default_interval_only_at_zero_int64_witness :
    effectiveIntervalSec (-3) = -3 ∧
    setupPollTicker (-3) = .error "non-positive interval for NewTicker" ∧
    setupPollTicker 7 = .ok (7 * nsPerSecond) :=
  ⟨(default_interval_only_at_zero_int64 (-3)).2.1 (by decide),
   (default_interval_only_at_zero_int64 (-3)).2.2.1 (by decide) (by decide),
   (default_interval_only_at_zero_int64 7).2.2.2 (by decide) (by decide)⟩

end DeviceCli
